import Mathlib

/-!
Verification of the obs-backgroundremoval core against its specification.

The development shallowly embeds the C++ sources:
* `src/ort-utils/gpu-info.cpp`          — GPU capability classification
* `src/ort-utils/ort-session-utils.cpp` — session build with provider fallback,
                                          and the per-frame inference cycle
* `src/ort-utils/async-inference-queue.cpp` — producer/worker frame queue
* `src/models/ModelRVM.h`               — shape derivation and recurrent state
* `src/models/ModelSINET.h`             — output extraction / channel selection

Machine integers of the source are modelled as `Nat`/`Int` (all quantities
involved stay far below any overflow boundary), fallible paths as `Except`,
out-parameters as explicit state records, and the worker loop as a step
function on its state.
-/

namespace ObsBgremoval

/-! ### GPU capability detection — gpu-info.h / gpu-info.cpp -/

/-- `enum class GpuArchitecture` from gpu-info.h. -/
inductive GpuArchitecture
  | UNKNOWN
  | TURING
  | AMPERE
  | ADA_LOVELACE
  deriving DecidableEq, Repr

/-- `enum class BufferingMode` from gpu-info.h (`DOUBLE = 2`, `TRIPLE = 3`). -/
inductive BufferingMode
  | DOUBLE
  | TRIPLE
  deriving DecidableEq, Repr

/-- The numeric value of the buffering enum: the queue depth hint. -/
def BufferingMode.depth : BufferingMode → Nat
  | .DOUBLE => 2
  | .TRIPLE => 3

/-- `enum class PrecisionMode` from gpu-info.h (`FP32 = 0`, `FP16 = 1`). -/
inductive PrecisionMode
  | FP32
  | FP16
  deriving DecidableEq, Repr

/-- The numeric value of the precision enum. -/
def PrecisionMode.toNat : PrecisionMode → Nat
  | .FP32 => 0
  | .FP16 => 1

/-- The fields of `struct GpuInfo` that the classification in `detectGpu`
assigns (device name and memory size are irrelevant to the policy). -/
structure GpuInfo where
  computeCapabilityMajor : Nat
  computeCapabilityMinor : Nat
  architecture : GpuArchitecture
  defaultBuffering : BufferingMode
  defaultPrecision : PrecisionMode
  deriving DecidableEq, Repr

/-- The success path of `detectGpu` (gpu-info.cpp lines 29–47): given the
device's compute capability, compute `sm = major * 10 + minor` and classify. -/
def detectGpuClassify (major minor : Nat) : GpuInfo :=
  let sm := major * 10 + minor
  if 89 ≤ sm then
    ⟨major, minor, .ADA_LOVELACE, .TRIPLE, .FP16⟩
  else if 80 ≤ sm then
    ⟨major, minor, .AMPERE, .DOUBLE, .FP16⟩
  else if 75 ≤ sm then
    ⟨major, minor, .TURING, .DOUBLE, .FP32⟩
  else
    ⟨major, minor, .UNKNOWN, .DOUBLE, .FP32⟩

/-! ### AsyncInferenceQueue — async-inference-queue.h / .cpp

A `cv::Mat` pixel buffer is modelled as a flat list; the default-constructed
(empty) `cv::Mat` is the empty list. -/

/-- A pixel buffer (`cv::Mat` content); `[]` is the empty matrix. -/
abbrev Mat := List Nat

/-- The producer-facing input slot of `AsyncInferenceQueue`: the fields
touched by `pushFrame` (`hasNewInput_`, `inputBuffer_`, `framesDropped_`). -/
structure InputSlot where
  hasNewInput : Bool
  inputBuffer : Mat
  framesDropped : Nat
  deriving DecidableEq, Repr

/-- `AsyncInferenceQueue::pushFrame` (async-inference-queue.cpp lines 50–64):
if a pending frame was not yet consumed, count it dropped; then copy the new
frame into the slot and raise the flag. -/
def pushFrame (frame : Mat) (s : InputSlot) : InputSlot :=
  let s := if s.hasNewInput then { s with framesDropped := s.framesDropped + 1 } else s
  { s with inputBuffer := frame, hasNewInput := true }

/-- The consumer-facing output slot of `AsyncInferenceQueue`: the fields
touched by `getLatestMask` (`hasOutput_`, `outputBuffer_`). -/
structure OutputSlot where
  hasOutput : Bool
  outputBuffer : Mat
  deriving DecidableEq, Repr

/-- Result of a `getLatestMask` call: the returned boolean, the slot after the
call, and the caller's `mask` buffer after the call. -/
structure MaskResult where
  returned : Bool
  slot : OutputSlot
  mask : Mat
  deriving DecidableEq, Repr

/-- `AsyncInferenceQueue::getLatestMask` (async-inference-queue.cpp lines
66–76): return false if no output is flagged or the published buffer is
empty; otherwise swap the published buffer with the caller's buffer and clear
the flag. -/
def getLatestMask (s : OutputSlot) (mask : Mat) : MaskResult :=
  if !s.hasOutput || decide (s.outputBuffer = []) then
    ⟨false, s, mask⟩
  else
    ⟨true, { hasOutput := false, outputBuffer := mask }, s.outputBuffer⟩

/-- The worker-side state of `AsyncInferenceQueue::workerLoop`: the shared
slots and counters plus the worker's two local buffers. -/
structure WorkerState where
  running : Bool
  hasNewInput : Bool
  inputBuffer : Mat
  localInput : Mat
  localOutput : Mat
  hasOutput : Bool
  outputBuffer : Mat
  framesProcessed : Nat
  deriving DecidableEq, Repr

/-- Whether an iteration of the worker loop `break`s out or loops again. -/
inductive LoopControl
  | exited
  | looped
  deriving DecidableEq, Repr

/-- One iteration of `AsyncInferenceQueue::workerLoop` (async-inference-queue.cpp
lines 78–116), entered after the condition variable wake-up: check the running
flag (break on shutdown), swap the pending input into the local buffer and
clear the flag, skip empty input, run the inference function (modelled as
writing its out-parameter and returning a success flag), and on success swap
the result into the published slot, raise availability and count the frame. -/
def workerIteration (inferenceFunc : Option (Mat → Mat × Bool)) (s : WorkerState) :
    WorkerState × LoopControl :=
  if s.running = false then
    (s, .exited)
  else
    let s1 := { s with inputBuffer := s.localInput, localInput := s.inputBuffer,
                       hasNewInput := false }
    if s1.localInput = [] then
      (s1, .looped)
    else
      match inferenceFunc with
      | none => (s1, .looped)
      | some f =>
        let result := f s1.localInput
        let s2 := { s1 with localOutput := result.1 }
        if result.2 then
          ({ s2 with localOutput := s2.outputBuffer, outputBuffer := s2.localOutput,
                     hasOutput := true, framesProcessed := s2.framesProcessed + 1 },
           .looped)
        else
          (s2, .looped)

/-! ### Session build — ort-session-utils.cpp `createOrtSession`

The build is embedded as a function of the acceleration mode and an
environment recording which external operations fail: whether the model
object is present, whether the model path resolves, whether TensorRT
configuration throws, whether appending the CUDA provider throws, which
provider chains make the `Ort::Session` constructor throw, and whether the
descriptor's shape population succeeds.  On success the value is the provider
chain of the session that was actually constructed. -/

/-- An ONNX Runtime execution provider appended to the session options. -/
inductive Provider
  | tensorrt
  | cuda
  deriving DecidableEq, Repr

/-- The `useGPU` mode consumed by `createOrtSession`
(`USEGPU_TENSORRT` vs. the CUDA-only branch). -/
inductive UseGpu
  | tensorrtMode
  | cudaMode
  deriving DecidableEq, Repr

/-- The `OBS_BGREMOVAL_ORT_SESSION_ERROR_*` return codes of consts.h. -/
inductive SessionError
  | invalidModel
  | fileNotFound
  | startup
  | invalidInputOutput
  deriving DecidableEq, Repr

/-- Environment of external effects for one `createOrtSession` call. -/
structure OrtEnv where
  modelPresent : Bool
  fileResolved : Bool
  trtConfigThrows : Bool
  appendCudaThrows : Bool
  sessionCtorFails : List Provider → Bool
  shapesOk : Bool

/-- The tail of `createOrtSession` after successful session construction
(ort-session-utils.cpp lines 148–176): populate names and shapes; if shape
population reports failure return the invalid-input-output code, otherwise
allocate buffers and return success.  No other check is applied to the
resolved shapes. -/
def finishSession (env : OrtEnv) (chain : List Provider) :
    Except SessionError (List Provider) :=
  if env.shapesOk then .ok chain else .error .invalidInputOutput

/-- The `catch` block of `createOrtSession` for the TensorRT mode
(ort-session-utils.cpp lines 130–141): retry construction with fresh
options holding only the CUDA provider; a second failure is fatal. -/
def retryWithCuda (env : OrtEnv) : Except SessionError (List Provider) :=
  if env.appendCudaThrows then .error .startup
  else if env.sessionCtorFails [Provider.cuda] then .error .startup
  else finishSession env [Provider.cuda]

/-- `createOrtSession` (ort-session-utils.cpp lines 31–177).  Null model and
unresolved path short-circuit.  In TensorRT mode the provider configuration
runs inside an inner try/catch, so a TensorRT configuration throw is
swallowed and leaves the chain empty; the CUDA provider is then always
appended.  A throw from the CUDA append or the session constructor reaches
the outer catch: in TensorRT mode that retries once with CUDA-only options,
in CUDA mode it is an immediate startup failure. -/
def createOrtSession (mode : UseGpu) (env : OrtEnv) :
    Except SessionError (List Provider) :=
  if env.modelPresent = false then .error .invalidModel
  else if env.fileResolved = false then .error .fileNotFound
  else
    match mode with
    | .tensorrtMode =>
      let chain := if env.trtConfigThrows then [] else [Provider.tensorrt]
      if env.appendCudaThrows then retryWithCuda env
      else
        let chain := chain ++ [Provider.cuda]
        if env.sessionCtorFails chain then retryWithCuda env
        else finishSession env chain
    | .cudaMode =>
      if env.appendCudaThrows then .error .startup
      else if env.sessionCtorFails [Provider.cuda] then .error .startup
      else finishSession env [Provider.cuda]

/-! ### ModelRVM shape derivation — ModelRVM.h `populateInputOutputShapes` -/

/-- The shape lists a built `Ort::Session` reports for its inputs and
outputs (`GetInputTypeInfo` / `GetOutputTypeInfo`); a dynamic dimension is
reported as `-1`. -/
structure OrtSession where
  inputShapes : List (List Int)
  outputShapes : List (List Int)
  deriving DecidableEq, Repr

/-- Write `v` into entry `j` of row `i` of a shape list (the C++
`dims[i][j] = v`; total, a no-op out of range — every use below is in
range). -/
def set2 : List (List Int) → Nat → Nat → Int → List (List Int)
  | [], _, _, _ => []
  | row :: rest, 0, j, v => row.set j v :: rest
  | row :: rest, Nat.succ i, j, v => row :: set2 rest i j v

/-- `ModelRVM::INPUT_WIDTH`. -/
def rvmInputWidth : Int := 1920

/-- `ModelRVM::INPUT_HEIGHT`. -/
def rvmInputHeight : Int := 1080

/-- `(int)(INPUT_HEIGHT * DOWNSAMPLE_RATIO)` with `DOWNSAMPLE_RATIO = 0.25f`:
the float product `1080 * 0.25f = 270.0f` is exact (0.25 is a power of two),
so the truncating cast equals integer division by 4. -/
def rvmInternalHeight : Int := 1080 / 4

/-- `(int)(INPUT_WIDTH * DOWNSAMPLE_RATIO)`: exact, `1920 / 4 = 480`. -/
def rvmInternalWidth : Int := 1920 / 4

/-- One stride-2 stage of the MobileNetV3 backbone: ceiling division by 2,
`(x + 1) / 2` (ModelRVM.h line 77; the operands are positive, so C++
truncation and Lean integer division agree). -/
def halfCeil (x : Int) : Int := (x + 1) / 2

/-- `halfCeil` applied `n` times. -/
def halfCeilIter : Nat → Int → Int
  | 0, x => x
  | n + 1, x => halfCeilIter n (halfCeil x)

/-- The input-side loop of `ModelRVM::populateInputOutputShapes` (lines
76–84): for each recurrent level `(i, c)` with `c` drawn from
`REC_CHANNELS = {16, 20, 40, 64}`, halve the running spatial size and write
`inputDims[i+1] = {1, c, h, w}`. -/
def rvmSetStateInputs : List (Nat × Int) → Int → Int → List (List Int) → List (List Int)
  | [], _, _, dims => dims
  | (i, c) :: rest, h, w, dims =>
    let h2 := (h + 1) / 2
    let w2 := (w + 1) / 2
    let dims := set2 dims (i + 1) 0 1
    let dims := set2 dims (i + 1) 1 c
    let dims := set2 dims (i + 1) 2 h2
    let dims := set2 dims (i + 1) 3 w2
    rvmSetStateInputs rest h2 w2 dims

/-- The output-side loop of `ModelRVM::populateInputOutputShapes` (lines
95–101): identical halving schedule, but only dimensions 0, 2 and 3 are
written — the channel entry is left as the graph declared it. -/
def rvmSetStateOutputs : List Nat → Int → Int → List (List Int) → List (List Int)
  | [], _, _, dims => dims
  | i :: rest, h, w, dims =>
    let h2 := (h + 1) / 2
    let w2 := (w + 1) / 2
    let dims := set2 dims (i + 1) 0 1
    let dims := set2 dims (i + 1) 2 h2
    let dims := set2 dims (i + 1) 3 w2
    rvmSetStateOutputs rest h2 w2 dims

/-- `ModelRVM::populateInputOutputShapes` (ModelRVM.h lines 44–104): copy
every session input shape; copy the session output shapes skipping output 0
(`fgr`); pin the primary input and the primary output (`pha`) to
`{1, _, 1080, 1920}`; derive the four recurrent-state shapes from the
internal resolution by repeated ceiling halving; return `true`
unconditionally. -/
def rvmPopulateInputOutputShapes (s : OrtSession) :
    List (List Int) × List (List Int) × Bool :=
  let inputDims := s.inputShapes
  let outputDims := s.outputShapes.drop 1
  let inputDims := set2 (set2 (set2 inputDims 0 0 1) 0 2 rvmInputHeight) 0 3 rvmInputWidth
  let inputDims :=
    rvmSetStateInputs [(0, 16), (1, 20), (2, 40), (3, 64)]
      rvmInternalHeight rvmInternalWidth inputDims
  let outputDims := set2 (set2 (set2 outputDims 0 0 1) 0 2 rvmInputHeight) 0 3 rvmInputWidth
  let outputDims :=
    rvmSetStateOutputs [0, 1, 2, 3] rvmInternalHeight rvmInternalWidth outputDims
  (inputDims, outputDims, true)

/-! ### The per-frame inference cycle — ort-session-utils.cpp
`runFilterModelInference`

The cycle is embedded generically over the model's operations acting on an
abstract state, composed in exactly the order of the source; a logging
instantiation then records which operation ran when. -/

/-- The observable steps of one inference cycle. -/
inductive InferStep
  | preprocessStep
  | setExtraScalarInputsStep
  | inferStep
  | extractOutputStep
  | carryStateStep
  | postprocessStep
  deriving DecidableEq, Repr

/-- The virtual model operations `runFilterModelInference` invokes, acting on
an abstract state `σ` (tensor buffers, images). -/
structure FilterModelOps (σ : Type) where
  cudaPreprocess : σ → σ
  setExtraTensorInputs : σ → σ
  runNetworkInference : σ → σ
  getNetworkOutput : σ → σ
  assignOutputToInput : σ → σ
  postprocessOutput : σ → σ
  convertTo8U : σ → σ

/-- The fields of `filter_data` that `runFilterModelInference` consults. -/
structure FilterData (σ : Type) where
  sessionPresent : Bool
  modelPresent : Bool
  ops : FilterModelOps σ

/-- `runFilterModelInference` (ort-session-utils.cpp lines 179–226): fail
fast on a missing session or model, then run, in source order, CUDA
preprocessing, `setExtraTensorInputs`, `runNetworkInference`,
`getNetworkOutput`, `assignOutputToInput`, `postprocessOutput`, and the final
8-bit conversion; `none` models the `false` return. -/
def runFilterModelInference {σ : Type} (tf : FilterData σ) (st : σ) : Option σ :=
  if tf.sessionPresent = false then none
  else if tf.modelPresent = false then none
  else
    let st := tf.ops.cudaPreprocess st
    let st := tf.ops.setExtraTensorInputs st
    let st := tf.ops.runNetworkInference st
    let st := tf.ops.getNetworkOutput st
    let st := tf.ops.assignOutputToInput st
    let st := tf.ops.postprocessOutput st
    some (tf.ops.convertTo8U st)

/-- Instrumentation: every model operation appends its step tag to a trace
(the final 8-bit conversion is not one of the contract's steps and logs
nothing). -/
def loggingOps : FilterModelOps (List InferStep) where
  cudaPreprocess := fun l => l ++ [.preprocessStep]
  setExtraTensorInputs := fun l => l ++ [.setExtraScalarInputsStep]
  runNetworkInference := fun l => l ++ [.inferStep]
  getNetworkOutput := fun l => l ++ [.extractOutputStep]
  assignOutputToInput := fun l => l ++ [.carryStateStep]
  postprocessOutput := fun l => l ++ [.postprocessStep]
  convertTo8U := fun l => l

/-! ### ModelSINET output extraction — ModelSINET.h -/

/-- A `cv::Mat` of 32-bit floats: row/column/channel counts and the flat
buffer the header points at. -/
structure MatF where
  rows : Nat
  cols : Nat
  channels : Nat
  data : List Float

/-- `ModelSINET::getNetworkOutput` (ModelSINET.h lines 26–31): wrap the
primary output tensor's flat buffer, unchanged, in a 320×320 two-channel
matrix header (`cv::Mat(320, 320, CV_32FC2, outputTensorValues[0].data())`). -/
def sinetGetNetworkOutput (outputTensorValues : List (List Float)) : MatF :=
  { rows := 320, cols := 320, channels := 2, data := outputTensorValues.getD 0 [] }

/-- Modelled from the spec: `chw_to_hwc_32f` lives in `Model.h`, which is not
under src/.  Per the spec's layout contract (§4.3/§4.4: channel-major versus
pixel-major images), it reinterprets the matrix's flat buffer as
channel-major planes and emits the pixel-major (interleaved) image: entry
`(r, c, k)` of the result is plane `k` of the source buffer at `(r, c)`. -/
def chw_to_hwc_32f (m : MatF) : MatF :=
  { rows := m.rows, cols := m.cols, channels := m.channels,
    data := (List.range (m.rows * m.cols * m.channels)).map fun idx =>
      let p := idx / m.channels
      let k := idx % m.channels
      let r := p / m.cols
      let c := p % m.cols
      m.data.getD (k * (m.rows * m.cols) + r * m.cols + c) 0 }

/-- `cv::split` followed by selecting plane `k`: from a pixel-major image,
the single-channel image whose pixel `p` is interleaved entry
`p * channels + k`. -/
def splitChannel (m : MatF) (k : Nat) : MatF :=
  { rows := m.rows, cols := m.cols, channels := 1,
    data := (List.range (m.rows * m.cols)).map fun p =>
      m.data.getD (p * m.channels + k) 0 }

/-- `ModelSINET::postprocessOutput` (ModelSINET.h lines 33–41): transpose the
channel-major buffer to pixel-major, split the channels, and keep channel
index 1. -/
def sinetPostprocessOutput (m : MatF) : MatF :=
  splitChannel (chw_to_hwc_32f m) 1

/-- Pixel `(r, c)` of a single-channel image. -/
def MatF.pixel (m : MatF) (r c : Nat) : Float :=
  m.data.getD (r * m.cols + c) 0

/-- The specified extraction, written from the spec's words: the primary
output tensor is a channel-major `1×2×320×320` confidence map, and the
extracted image is its channel index 1, so pixel `(r, c)` is flat entry
`1·(320·320) + r·320 + c` of the tensor buffer. -/
def sinetExtractSpec (buf : List Float) (r c : Nat) : Float :=
  buf.getD (1 * (320 * 320) + r * 320 + c) 0

/-! ## Theorems -/

/-- C3: a `pushFrame` call on an occupied pending slot increments the
dropped-frame counter by exactly 1, a call on an empty slot increments
nothing; in either case the slot afterwards holds exactly the pushed frame
with the new-input flag raised, so two pushes before any worker pickup drop
exactly one frame and leave only the second frame visible. -/
theorem pushFrame_backpressure (s : InputSlot) (f g : Mat) :
    (s.hasNewInput = true → (pushFrame f s).framesDropped = s.framesDropped + 1) ∧
    (s.hasNewInput = false → (pushFrame f s).framesDropped = s.framesDropped) ∧
    (pushFrame f s).inputBuffer = f ∧
    (pushFrame f s).hasNewInput = true ∧
    (s.hasNewInput = false →
      (pushFrame g (pushFrame f s)).framesDropped = s.framesDropped + 1 ∧
      (pushFrame g (pushFrame f s)).inputBuffer = g ∧
      (pushFrame g (pushFrame f s)).hasNewInput = true) := by
  cases h : s.hasNewInput <;> simp [pushFrame, h]

/-- Witness for C3: two pushes from an empty slot drop exactly one frame and
leave the second frame pending; a push onto an occupied slot bumps the
counter. -/
theorem pushFrame_backpressure_witness :
    (pushFrame [2] (pushFrame [1] ⟨false, [], 0⟩)).framesDropped = 0 + 1 ∧
    (pushFrame [2] (pushFrame [1] ⟨false, [], 0⟩)).inputBuffer = [2] ∧
    (pushFrame [9] ⟨true, [3], 5⟩).framesDropped = 5 + 1 := by
  refine ⟨?_, ?_, ?_⟩
  · exact ((pushFrame_backpressure ⟨false, [], 0⟩ [1] [2]).2.2.2.2 rfl).1
  · exact ((pushFrame_backpressure ⟨false, [], 0⟩ [1] [2]).2.2.2.2 rfl).2.1
  · exact (pushFrame_backpressure ⟨true, [3], 5⟩ [9] [9]).1 rfl

/-- C4: a `getLatestMask` call that returns true hands the published buffer
to the caller and clears the availability flag, so an immediately following
call returns false; a call when no unconsumed output exists returns false and
leaves the caller's buffer untouched. -/
theorem getLatestMask_exactly_once (s : OutputSlot) (m m2 : Mat) :
    ((getLatestMask s m).returned = true →
      (getLatestMask s m).mask = s.outputBuffer ∧
      (getLatestMask s m).slot.hasOutput = false ∧
      (getLatestMask (getLatestMask s m).slot m2).returned = false) ∧
    (s.hasOutput = false → getLatestMask s m = ⟨false, s, m⟩) := by
  by_cases h : s.hasOutput <;> by_cases hb : s.outputBuffer = [] <;>
    simp [getLatestMask, h, hb]

/-- Witness for C4: with `[7]` published, the first call delivers `[7]` and
the second returns false; with the flag down the call is a no-op. -/
theorem getLatestMask_exactly_once_witness :
    (getLatestMask ⟨true, [7]⟩ []).mask = [7] ∧
    (getLatestMask (getLatestMask ⟨true, [7]⟩ []).slot []).returned = false ∧
    getLatestMask ⟨false, [7]⟩ [] = ⟨false, ⟨false, [7]⟩, []⟩ := by
  refine ⟨?_, ?_, ?_⟩
  · exact ((getLatestMask_exactly_once ⟨true, [7]⟩ [] []).1 rfl).1
  · exact ((getLatestMask_exactly_once ⟨true, [7]⟩ [] []).1 rfl).2.2
  · exact (getLatestMask_exactly_once ⟨false, [7]⟩ [] []).2 rfl

/-- C10: `getLatestMask` refuses an empty published buffer even when the
availability flag is set, leaving the caller's buffer untouched; hence every
true return delivers a non-empty mask. -/
theorem getLatestMask_nonempty (s : OutputSlot) (m : Mat) :
    (s.outputBuffer = [] → getLatestMask s m = ⟨false, s, m⟩) ∧
    ((getLatestMask s m).returned = true → (getLatestMask s m).mask ≠ []) := by
  by_cases h : s.hasOutput <;> by_cases hb : s.outputBuffer = [] <;>
    simp [getLatestMask, h, hb]

/-- Witness for C10: an empty published buffer with the flag set still
returns false; a true return carries a non-empty mask. -/
theorem getLatestMask_nonempty_witness :
    getLatestMask ⟨true, []⟩ [5] = ⟨false, ⟨true, []⟩, [5]⟩ ∧
    (getLatestMask ⟨true, [7]⟩ []).mask ≠ [] := by
  refine ⟨?_, ?_⟩
  · exact (getLatestMask_nonempty ⟨true, []⟩ [5]).1 rfl
  · exact (getLatestMask_nonempty ⟨true, [7]⟩ []).2 rfl

/-- C6: a worker iteration whose inference call fails publishes nothing (the
output slot and its flag are unchanged), does not count a processed frame,
and loops again with the running flag still up — a cycle failure is never
fatal to the queue. -/
theorem workerLoop_failure_not_fatal (f : Mat → Mat × Bool) (s : WorkerState)
    (hrun : s.running = true) (hne : s.inputBuffer ≠ [])
    (hfail : (f s.inputBuffer).2 = false) :
    (workerIteration (some f) s).2 = LoopControl.looped ∧
    (workerIteration (some f) s).1.hasOutput = s.hasOutput ∧
    (workerIteration (some f) s).1.outputBuffer = s.outputBuffer ∧
    (workerIteration (some f) s).1.framesProcessed = s.framesProcessed ∧
    (workerIteration (some f) s).1.running = true := by
  simp [workerIteration, hrun, hne, hfail]

/-- Witness for C6: an always-failing inference function leaves the counter
and output slot alone and the loop continues. -/
theorem workerLoop_failure_not_fatal_witness :
    (workerIteration (some fun _ => ([], false))
        ⟨true, true, [1], [], [], false, [7], 3⟩).2 = LoopControl.looped ∧
    (workerIteration (some fun _ => ([], false))
        ⟨true, true, [1], [], [], false, [7], 3⟩).1.framesProcessed = 3 ∧
    (workerIteration (some fun _ => ([], false))
        ⟨true, true, [1], [], [], false, [7], 3⟩).1.outputBuffer = [7] := by
  refine ⟨?_, ?_, ?_⟩
  · exact (workerLoop_failure_not_fatal (fun _ => ([], false))
      ⟨true, true, [1], [], [], false, [7], 3⟩ rfl (by decide) rfl).1
  · exact (workerLoop_failure_not_fatal (fun _ => ([], false))
      ⟨true, true, [1], [], [], false, [7], 3⟩ rfl (by decide) rfl).2.2.2.1
  · exact (workerLoop_failure_not_fatal (fun _ => ([], false))
      ⟨true, true, [1], [], [], false, [7], 3⟩ rfl (by decide) rfl).2.2.1

/-- C7: `detectGpu` classifies by the capability score `sm = major·10 +
minor`: `sm ≥ 89` gives triple buffering with FP16, `80 ≤ sm < 89` double
with FP16, `75 ≤ sm < 80` double with FP32, `sm < 75` double with FP32; the
buffering depth is always 2 or 3 and both defaults are monotone in the
score. -/
theorem detectGpu_policy (major minor major2 minor2 : Nat) :
    (89 ≤ major * 10 + minor →
      detectGpuClassify major minor = ⟨major, minor, .ADA_LOVELACE, .TRIPLE, .FP16⟩) ∧
    (80 ≤ major * 10 + minor → major * 10 + minor < 89 →
      detectGpuClassify major minor = ⟨major, minor, .AMPERE, .DOUBLE, .FP16⟩) ∧
    (75 ≤ major * 10 + minor → major * 10 + minor < 80 →
      detectGpuClassify major minor = ⟨major, minor, .TURING, .DOUBLE, .FP32⟩) ∧
    (major * 10 + minor < 75 →
      detectGpuClassify major minor = ⟨major, minor, .UNKNOWN, .DOUBLE, .FP32⟩) ∧
    ((detectGpuClassify major minor).defaultBuffering.depth = 2 ∨
      (detectGpuClassify major minor).defaultBuffering.depth = 3) ∧
    (major * 10 + minor ≤ major2 * 10 + minor2 →
      (detectGpuClassify major minor).defaultBuffering.depth ≤
        (detectGpuClassify major2 minor2).defaultBuffering.depth ∧
      (detectGpuClassify major minor).defaultPrecision.toNat ≤
        (detectGpuClassify major2 minor2).defaultPrecision.toNat) := by
  refine ⟨?_, ?_, ?_, ?_, ?_, ?_⟩ <;>
    · intros
      simp only [detectGpuClassify]
      split_ifs <;>
        first
          | rfl
          | omega
          | simp [BufferingMode.depth, PrecisionMode.toNat]

/-- Witness for C7: a device of each tier gets the tiered defaults, and a
Turing-class device never gets deeper buffering than an Ada-class one. -/
theorem detectGpu_policy_witness :
    detectGpuClassify 8 9 = ⟨8, 9, .ADA_LOVELACE, .TRIPLE, .FP16⟩ ∧
    detectGpuClassify 8 6 = ⟨8, 6, .AMPERE, .DOUBLE, .FP16⟩ ∧
    detectGpuClassify 7 5 = ⟨7, 5, .TURING, .DOUBLE, .FP32⟩ ∧
    detectGpuClassify 6 1 = ⟨6, 1, .UNKNOWN, .DOUBLE, .FP32⟩ ∧
    (detectGpuClassify 7 5).defaultBuffering.depth ≤
      (detectGpuClassify 8 9).defaultBuffering.depth := by
  refine ⟨?_, ?_, ?_, ?_, ?_⟩
  · exact (detectGpu_policy 8 9 8 9).1 (by decide)
  · exact (detectGpu_policy 8 6 8 6).2.1 (by decide) (by decide)
  · exact (detectGpu_policy 7 5 7 5).2.2.1 (by decide) (by decide)
  · exact (detectGpu_policy 6 1 6 1).2.2.2.1 (by decide)
  · exact ((detectGpu_policy 7 5 8 9).2.2.2.2.2 (by decide)).1

/-- C5: one inference cycle runs its operations in the fixed source order
preprocess → setExtraScalarInputs → infer → extractOutput → carryState →
postprocess; in particular the state carry-over runs strictly after output
extraction and exactly once per completed cycle. -/
theorem inference_cycle_order (tf : FilterData (List InferStep))
    (hs : tf.sessionPresent = true) (hm : tf.modelPresent = true)
    (hops : tf.ops = loggingOps) :
    ∃ trace, runFilterModelInference tf [] = some trace ∧
      trace = [InferStep.preprocessStep, InferStep.setExtraScalarInputsStep,
               InferStep.inferStep, InferStep.extractOutputStep,
               InferStep.carryStateStep, InferStep.postprocessStep] ∧
      trace.count InferStep.carryStateStep = 1 ∧
      trace.indexOf InferStep.extractOutputStep <
        trace.indexOf InferStep.carryStateStep := by
  obtain ⟨sp, mp, ops⟩ := tf
  have hs2 : sp = true := hs
  have hm2 : mp = true := hm
  have hops2 : ops = loggingOps := hops
  subst hs2; subst hm2; subst hops2
  exact ⟨_, rfl, rfl, by decide, by decide⟩

/-- Witness for C5: the instrumented cycle with a live session and model
produces exactly the contract's trace. -/
theorem inference_cycle_order_witness :
    ∃ trace, runFilterModelInference ⟨true, true, loggingOps⟩ [] = some trace ∧
      trace = [InferStep.preprocessStep, InferStep.setExtraScalarInputsStep,
               InferStep.inferStep, InferStep.extractOutputStep,
               InferStep.carryStateStep, InferStep.postprocessStep] ∧
      trace.count InferStep.carryStateStep = 1 ∧
      trace.indexOf InferStep.extractOutputStep <
        trace.indexOf InferStep.carryStateStep :=
  inference_cycle_order ⟨true, true, loggingOps⟩ rfl rfl rfl

/-- C2: in TensorRT mode a session-construction failure triggers exactly one
retry with fresh CUDA-only options — a second failure yields the startup
error, a successful retry finishes the build on the CUDA-only chain; in
CUDA-only mode a construction failure is an immediate startup error; and a
throw confined to TensorRT provider configuration still appends the CUDA
provider and the build succeeds. -/
theorem createOrtSession_fallback (env : OrtEnv)
    (hm : env.modelPresent = true) (hf : env.fileResolved = true)
    (hcuda : env.appendCudaThrows = false) :
    (env.sessionCtorFails
        ((if env.trtConfigThrows then [] else [Provider.tensorrt]) ++ [Provider.cuda]) = true →
      env.sessionCtorFails [Provider.cuda] = true →
      createOrtSession .tensorrtMode env = .error .startup) ∧
    (env.sessionCtorFails
        ((if env.trtConfigThrows then [] else [Provider.tensorrt]) ++ [Provider.cuda]) = true →
      env.sessionCtorFails [Provider.cuda] = false →
      createOrtSession .tensorrtMode env = finishSession env [Provider.cuda]) ∧
    (env.sessionCtorFails [Provider.cuda] = true →
      createOrtSession .cudaMode env = .error .startup) ∧
    (env.trtConfigThrows = true → env.sessionCtorFails [Provider.cuda] = false →
      env.shapesOk = true →
      createOrtSession .tensorrtMode env = .ok [Provider.cuda]) := by
  refine ⟨fun h1 h2 => ?_, fun h1 h2 => ?_, fun h1 => ?_, fun h1 h2 h3 => ?_⟩ <;>
    simp [createOrtSession, retryWithCuda, finishSession, hm, hf, hcuda, *]

/-- Witness for C2: a constructor that always fails makes both modes fail
with the startup error; one that rejects only chains containing TensorRT
makes TensorRT mode fall back to the CUDA-only session; a TensorRT
configuration throw alone still yields a successful CUDA-backed build. -/
theorem createOrtSession_fallback_witness :
    createOrtSession .tensorrtMode
        ⟨true, true, false, false, fun _ => true, true⟩ = .error .startup ∧
    createOrtSession .cudaMode
        ⟨true, true, false, false, fun _ => true, true⟩ = .error .startup ∧
    createOrtSession .tensorrtMode
        ⟨true, true, false, false, fun chain => decide (Provider.tensorrt ∈ chain), true⟩ =
      finishSession ⟨true, true, false, false,
        fun chain => decide (Provider.tensorrt ∈ chain), true⟩ [Provider.cuda] ∧
    createOrtSession .tensorrtMode
        ⟨true, true, true, false, fun _ => false, true⟩ = .ok [Provider.cuda] := by
  refine ⟨?_, ?_, ?_, ?_⟩
  · exact (createOrtSession_fallback _ rfl rfl rfl).1 rfl rfl
  · exact (createOrtSession_fallback _ rfl rfl rfl).2.2.1 rfl
  · exact (createOrtSession_fallback _ rfl rfl rfl).2.1 (by decide) (by decide)
  · exact (createOrtSession_fallback _ rfl rfl rfl).2.2.2 rfl rfl rfl

set_option maxHeartbeats 1000000 in
/-- C1: for any session-declared shapes of the right arity (six inputs —
image, four recurrent states, the scalar ratio input — and six outputs led by
the skipped `fgr`), `ModelRVM::populateInputOutputShapes` produces exactly
four recurrent-state input shapes and four matching output shapes: state
level `i` has spatial size `halfCeilIter i` of the internal resolution
`⌊1080/4⌋ × ⌊1920/4⌋` and channel count from the fixed table
`16, 20, 40, 64` (the output channel entries are the graph's static
declarations, which the RVM graph fixes to the same table); the primary
input and primary output are pinned to the full working resolution
1080×1920 with leading dimension 1. -/
theorem rvm_shape_derivation
    (a0 b0 c0 d0 a1 b1 c1 d1 a2 b2 c2 d2 a3 b3 c3 d3 a4 b4 c4 d4 e : Int)
    (fgr : List Int) (p0 p1 p2 p3 : Int)
    (q0 q2 q3 r0 r2 r3 s0 s2 s3 t0 t2 t3 : Int) :
    rvmPopulateInputOutputShapes
      ⟨[[a0, b0, c0, d0], [a1, b1, c1, d1], [a2, b2, c2, d2], [a3, b3, c3, d3],
        [a4, b4, c4, d4], [e]],
       [fgr, [p0, p1, p2, p3], [q0, 16, q2, q3], [r0, 20, r2, r3],
        [s0, 40, s2, s3], [t0, 64, t2, t3]]⟩ =
      ([[1, b0, rvmInputHeight, rvmInputWidth],
        [1, 16, halfCeilIter 1 rvmInternalHeight, halfCeilIter 1 rvmInternalWidth],
        [1, 20, halfCeilIter 2 rvmInternalHeight, halfCeilIter 2 rvmInternalWidth],
        [1, 40, halfCeilIter 3 rvmInternalHeight, halfCeilIter 3 rvmInternalWidth],
        [1, 64, halfCeilIter 4 rvmInternalHeight, halfCeilIter 4 rvmInternalWidth],
        [e]],
       [[1, p1, rvmInputHeight, rvmInputWidth],
        [1, 16, halfCeilIter 1 rvmInternalHeight, halfCeilIter 1 rvmInternalWidth],
        [1, 20, halfCeilIter 2 rvmInternalHeight, halfCeilIter 2 rvmInternalWidth],
        [1, 40, halfCeilIter 3 rvmInternalHeight, halfCeilIter 3 rvmInternalWidth],
        [1, 64, halfCeilIter 4 rvmInternalHeight, halfCeilIter 4 rvmInternalWidth]],
       true) := by
  rfl

/-- An RVM-style session whose `r1o` output declares a dynamic channel
dimension (`-1`), as ONNX reports unresolved dimensions. -/
def rvmBadSession : OrtSession :=
  ⟨[[1, 3, -1, -1], [1, -1, -1, -1], [1, -1, -1, -1], [1, -1, -1, -1],
    [1, -1, -1, -1], [1]],
   [[1, 3, -1, -1], [1, 1, -1, -1], [1, -1, -1, -1], [1, 20, -1, -1],
    [1, 40, -1, -1], [1, 64, -1, -1]]⟩

/-- Counterexample to C8: on a session whose resolved `r1o` shape keeps the
dynamic channel `-1` (violating "all dims > 0"), `populateInputOutputShapes`
still reports success, and the build returns the success code — not the
shape-mismatch error `OBS_BGREMOVAL_ORT_SESSION_ERROR_INVALID_INPUT_OUTPUT`. -/
theorem createOrtSession_no_dim_check_counterexample :
    (rvmPopulateInputOutputShapes rvmBadSession).2.2 = true ∧
    ((rvmPopulateInputOutputShapes rvmBadSession).2.1.getD 1 []).getD 1 0 = -1 ∧
    createOrtSession UseGpu.cudaMode
      { modelPresent := true, fileResolved := true, trtConfigThrows := false,
        appendCudaThrows := false, sessionCtorFails := fun _ => false,
        shapesOk := (rvmPopulateInputOutputShapes rvmBadSession).2.2 } =
      .ok [Provider.cuda] := by
  exact ⟨rfl, by decide, rfl⟩

/-- C8 (amended): after successful construction the build returns the
shape-mismatch code exactly when the descriptor's shape population reports
failure; no first-dimension or positivity verification is performed, and the
ModelRVM variant's `populateInputOutputShapes` reports success
unconditionally. -/
theorem createOrtSession_shape_flag (env : OrtEnv)
    (hm : env.modelPresent = true) (hf : env.fileResolved = true)
    (hcuda : env.appendCudaThrows = false)
    (hctor : env.sessionCtorFails [Provider.cuda] = false) :
    (env.shapesOk = false →
      createOrtSession .cudaMode env = .error .invalidInputOutput) ∧
    (env.shapesOk = true →
      createOrtSession .cudaMode env = .ok [Provider.cuda]) ∧
    (∀ s : OrtSession, (rvmPopulateInputOutputShapes s).2.2 = true) := by
  refine ⟨fun h => ?_, fun h => ?_, fun s => rfl⟩ <;>
    simp [createOrtSession, finishSession, hm, hf, hcuda, hctor, h]

/-- Witness for the amended C8: a failing shape population yields the
invalid-input-output code, a succeeding one yields success. -/
theorem createOrtSession_shape_flag_witness :
    createOrtSession .cudaMode ⟨true, true, false, false, fun _ => false, false⟩ =
      .error .invalidInputOutput ∧
    createOrtSession .cudaMode ⟨true, true, false, false, fun _ => false, true⟩ =
      .ok [Provider.cuda] := by
  refine ⟨?_, ?_⟩
  · exact (createOrtSession_shape_flag _ rfl rfl rfl rfl).1 rfl
  · exact (createOrtSession_shape_flag _ rfl rfl rfl rfl).2.1 rfl

/-- Indexing a mapped range list inside its bounds. -/
theorem getD_range_map (n i : Nat) (f : Nat → Float) (h : i < n) :
    ((List.range n).map f).getD i 0 = f i := by
  rw [List.getD_eq_getElem?_getD, List.getElem?_map, List.getElem?_range h]
  rfl

/-- C9: for the single-frame-segmentation variant, extraction followed by
postprocessing maps the primary output tensor's flat channel-major buffer to
the single-channel 320×320 image holding channel index 1 of the 2-channel
confidence map. -/
theorem sinet_output_extraction (buf : List Float) (r c : Nat)
    (hr : r < 320) (hc : c < 320) :
    (sinetPostprocessOutput (sinetGetNetworkOutput [buf])).rows = 320 ∧
    (sinetPostprocessOutput (sinetGetNetworkOutput [buf])).cols = 320 ∧
    (sinetPostprocessOutput (sinetGetNetworkOutput [buf])).channels = 1 ∧
    (sinetPostprocessOutput (sinetGetNetworkOutput [buf])).pixel r c =
      sinetExtractSpec buf r c := by
  refine ⟨rfl, rfl, rfl, ?_⟩
  dsimp only [MatF.pixel, sinetPostprocessOutput, splitChannel, chw_to_hwc_32f,
    sinetGetNetworkOutput, sinetExtractSpec]
  rw [getD_range_map (320 * 320) (r * 320 + c) _ (by omega)]
  rw [getD_range_map (320 * 320 * 2) ((r * 320 + c) * 2 + 1) _ (by omega)]
  refine congrArg (fun i => buf.getD i 0) ?_
  omega

/-- Witness for C9: at pixel (0, 0) of an empty buffer both sides agree (and
the bounds hold). -/
theorem sinet_output_extraction_witness :
    (sinetPostprocessOutput (sinetGetNetworkOutput [[]])).channels = 1 ∧
    (sinetPostprocessOutput (sinetGetNetworkOutput [[]])).pixel 0 0 =
      sinetExtractSpec [] 0 0 := by
  refine ⟨?_, ?_⟩
  · exact (sinet_output_extraction [] 0 0 (by decide) (by decide)).2.2.1
  · exact (sinet_output_extraction [] 0 0 (by decide) (by decide)).2.2.2

end ObsBgremoval
